import Mathlib

/-!
Shallow embedding of the discovery-and-connection core of `roon_pytui`
(files `src/roon_pytui/connection/discovery.py`,
`src/roon_pytui/connection/manager.py`,
`src/roon_pytui/models/connection.py`,
`src/roon_pytui/config/manager.py`), together with theorems settling the
frozen claims about it.

External collaborators (the `roonapi` library's `SOODMessage` decoder, the
UDP socket, the `RoonApi` session object) are modelled as inputs: a received
datagram is represented by its decode outcome, an arriving authorization
event by the token the session exposes at that moment.  Everything the
repository's own code does with those inputs is translated line by line.
-/

namespace RoonPytui

/-- Mirrors `ServerInfo` from `models/connection.py`: an immutable record of a
discovered Roon Core server. -/
structure ServerInfo where
  core_id : String
  core_name : String
  display_version : String
  host : String
  http_port : Int
deriving Repr, DecidableEq

/-- Mirrors `ConnectionState` from `models/connection.py`. -/
inductive ConnectionState where
  | disconnected
  | discovering
  | connecting
  | authenticating
  | connected
  | error
deriving Repr, DecidableEq

/-- Mirrors `AuthenticationStatus` from `models/connection.py`. -/
structure AuthenticationStatus where
  is_authenticated : Bool
  token : Option String
  error_message : Option String
deriving Repr, DecidableEq

/-- Mirrors `AppConfig` from `config/manager.py`: the persisted-credential
record, all fields optional. -/
structure AppConfig where
  core_id : Option String
  core_name : Option String
  token : Option String
  host : Option String
  port : Option Int
deriving Repr, DecidableEq

/-- Python truthiness of an optional string (`None` and `""` are falsy). -/
def truthyStr : Option String → Bool
  | none => false
  | some s => s ≠ ""

/-- Python truthiness of an optional integer (`None` and `0` are falsy). -/
def truthyInt : Option Int → Bool
  | none => false
  | some n => n ≠ 0

/-- Python `x or d` on an optional string: yields `d` when `x` is `None` or
empty (used for `config.core_name or "Unknown"` in `reconnect_from_config`). -/
def orElseStr (x : Option String) (d : String) : String :=
  match x with
  | none => d
  | some s => if s = "" then d else s

/-- Models CPython `int(s)` on the decoded property strings appearing here:
optional surrounding whitespace, an optional sign, then one or more decimal
digits; any other shape raises `ValueError`, modelled as `none`. -/
def pyIntOfString (s : String) : Option Int :=
  let cs := s.data.dropWhile Char.isWhitespace
  let cs := (cs.reverse.dropWhile Char.isWhitespace).reverse
  let signed :=
    match cs with
    | '-' :: rest => (true, rest)
    | '+' :: rest => (false, rest)
    | rest => (false, rest)
  let digits := signed.2
  if digits ≠ [] ∧ digits.all Char.isDigit then
    let n : Nat := digits.foldl (fun acc c => acc * 10 + (c.toNat - 48)) 0
    if signed.1 then some (-(n : Int)) else some (n : Int)
  else
    none

/-- The four keys `discover_servers` reads out of a decoded SOOD message's
property dictionary (`message.get("properties", {})`); a `none` field is an
absent key.  `http_port`, when present on the wire, is a string that the code
passes through `int(...)`. -/
structure SoodProperties where
  unique_id : Option String
  name : Option String
  display_version : Option String
  http_port : Option String
deriving Repr, DecidableEq

/-- `int(properties.get("http_port", 9100))`: an absent key supplies the
integer `9100` directly; a present key is a string handed to `int`, whose
failure (`ValueError`) is `none`. -/
def extractHttpPort (o : Option String) : Option Int :=
  match o with
  | none => some 9100
  | some s => pyIntOfString s

/-- The `ServerInfo` object `discover_servers` builds from one decoded
datagram (source host, property map, already-parsed port). -/
def mkServerInfo (host : String) (props : SoodProperties) (port : Int) : ServerInfo :=
  { core_id := props.unique_id.getD ""
    core_name := props.name.getD "Unknown"
    display_version := props.display_version.getD "Unknown"
    host := host
    http_port := port }

/-- One iteration's input to the receive loop of `discover_servers`:
either `recvfrom` raises `socket.timeout`, or it raises some other
exception, or it yields a datagram from `host` whose `SOODMessage` decode
either fails with `FormatException` or produces a property map. -/
inductive RecvEvent where
  | timeout
  | recvError
  | datagram (host : String) (decode : Except Unit SoodProperties)
deriving Repr

/-- The receive loop of `discover_servers` (`while True: ...`), translated
clause by clause: `socket.timeout` breaks; any other receive-time exception
breaks; a `FormatException` from decoding continues; a `ValueError` escaping
from `int(...)` is caught by the outer `except Exception` and breaks; a
datagram whose (possibly defaulted) `unique_id` was already seen is skipped;
otherwise a `ServerInfo` is appended and the id marked seen.  An exhausted
event list stands for a quiet network, which the real loop ends via
`socket.timeout`. -/
def recvLoop : List RecvEvent → List ServerInfo → List String → List ServerInfo
  | [], servers, _ => servers
  | .timeout :: _, servers, _ => servers
  | .recvError :: _, servers, _ => servers
  | .datagram host dec :: rest, servers, seen =>
    match dec with
    | .error _ => recvLoop rest servers seen
    | .ok props =>
      match extractHttpPort props.http_port with
      | none => servers
      | some port =>
        let uid := props.unique_id.getD ""
        if uid ∈ seen then
          recvLoop rest servers seen
        else
          recvLoop rest (servers ++ [mkServerInfo host props port]) (uid :: seen)

/-- Everything outside `discover_servers` that decides its outcome: whether
the `.soodmsg` probe payload can be read (its `FileNotFoundError` branch),
whether the socket can be created and bound (any other pre-loop exception),
and the sequence of receive-loop inputs. -/
structure DiscoveryEnv where
  soodFileOk : Bool
  socketOk : Bool
  events : List RecvEvent
deriving Repr

/-- `RoonDiscovery.discover_servers` as a function of its environment: the
outer `try` turns a missing probe file or a pre-loop socket failure into an
empty list; otherwise the receive loop runs with empty accumulators. -/
def discover_servers (env : DiscoveryEnv) : List ServerInfo :=
  if env.soodFileOk ∧ env.socketOk then
    recvLoop env.events [] []
  else
    []

/-- Timing model of the receive loop.  The code sets `sock.settimeout(timeout)`
once; Python socket timeouts are per `recvfrom` call, so each wait for the
next datagram may last up to `timeout` seconds and the clock restarts after
every received datagram.  A trace is the list of inter-arrival gaps (seconds
since the previous receive event, the first measured from loop start); a gap
of at most `timeout` delivers the datagram after that many seconds, a longer
one makes `recvfrom` raise `socket.timeout` after `timeout` seconds and the
loop break. -/
def elapsedSeconds (timeout : Nat) : List Nat → Nat
  | [] => timeout
  | g :: rest => if g ≤ timeout then g + elapsedSeconds timeout rest else timeout

/-- In the same timing model, how many datagrams the loop receives and
processes before `recvfrom` first times out. -/
def receivedCount (timeout : Nat) : List Nat → Nat
  | [] => 0
  | g :: rest => if g ≤ timeout then receivedCount timeout rest + 1 else 0

/-- The opaque `RoonApi` session handle as far as `ConnectionManager` is
concerned: the constructor arguments the manager passes in
(`host=server.host, port=server.http_port`). -/
structure RoonApiHandle where
  host : String
  http_port : Int
deriving Repr, DecidableEq

/-- The mutable state of `ConnectionManager` together with its observable
effects: `config` is what the `ConfigManager` currently holds, `saves`
records every payload written through `config_manager.update(...)` in order,
and `emitted` every `AuthenticationStatus` handed to the auth callback. -/
structure ManagerState where
  api : Option RoonApiHandle
  state : ConnectionState
  current_server : Option ServerInfo
  config : AppConfig
  saves : List AppConfig
  emitted : List AuthenticationStatus
deriving Repr, DecidableEq

/-- `ConnectionManager.__init__`: disconnected, no session, no target,
starting from the loaded configuration `c`. -/
def initManager (c : AppConfig) : ManagerState :=
  { api := none
    state := .disconnected
    current_server := none
    config := c
    saves := []
    emitted := [] }

/-- `config_manager.update(core_id=..., core_name=..., token=..., host=...,
port=...)` as called from `_on_state_change`: load the current record,
overwrite exactly those five fields, save. -/
def configUpdate (c : AppConfig) (core_id core_name token host : String)
    (port : Int) : AppConfig :=
  { c with
    core_id := some core_id
    core_name := some core_name
    token := some token
    host := some host
    port := some port }

/-- `ConnectionManager.connect(server, token)`.  The body first assigns
`self._state = CONNECTING` and `self._current_server = server`, then builds
the `RoonApi`; that construction is the external call that may raise, so its
outcome is the input `creation` (`.ok` with the handle's view, or `.error`
with the exception's message).  On success the state moves on to
`AUTHENTICATING` and the call returns `True`; on a synchronous failure the
`except` block sets `ERROR`, emits a failure `AuthenticationStatus`, and
returns `False` — note `self._api` was never reassigned on that path. -/
def connect (m : ManagerState) (server : ServerInfo) (_token : Option String)
    (creation : Except String Unit) : ManagerState × Bool :=
  let m1 := { m with state := .connecting, current_server := some server }
  match creation with
  | .ok _ =>
    let m2 := { m1 with api := some { host := server.host, http_port := server.http_port } }
    ({ m2 with state := .authenticating }, true)
  | .error msg =>
    let m2 := { m1 with state := .error }
    ({ m2 with emitted := m2.emitted ++
        [{ is_authenticated := false, token := none, error_message := some msg }] }, false)

/-- `ConnectionManager._on_state_change(event, changed_items)`.  The event
payload is ignored; the body reads `self._api.token` from the live session,
here the input `apiToken` (with `hasattr(self._api, "token")` always true for
a real `RoonApi`).  When `self._api` exists and the token is truthy it sets
`CONNECTED`, persists through `config_manager.update` if a current server is
set, and notifies the auth callback; otherwise it only logs. -/
def on_state_change (m : ManagerState) (apiToken : Option String) : ManagerState :=
  if m.api.isSome ∧ truthyStr apiToken then
    let tok := apiToken.getD ""
    let m1 := { m with state := .connected }
    let m2 :=
      match m1.current_server with
      | some s =>
        let c := configUpdate m1.config s.core_id s.core_name tok s.host s.http_port
        { m1 with config := c, saves := m1.saves ++ [c] }
      | none => m1
    { m2 with emitted := m2.emitted ++
        [{ is_authenticated := true, token := some tok, error_message := none }] }
  else
    m

/-- Folds a run of session state-change events (each carrying the token the
session exposes at that moment) through `_on_state_change`. -/
def runStateChanges (m : ManagerState) (tokens : List (Option String)) : ManagerState :=
  tokens.foldl on_state_change m

/-- `ConnectionManager.disconnect()`: if a session exists its `stop()` is
attempted inside `try/except/finally` — `stopRaises` says whether that
external call raises, and either way the `finally` clears `self._api` and the
exception is only logged — then the state is set to `DISCONNECTED` and the
current server cleared, unconditionally. -/
def disconnect (m : ManagerState) (stopRaises : Bool) : ManagerState :=
  let m1 :=
    if m.api.isSome then
      let _ := stopRaises
      { m with api := none }
    else
      m
  { m1 with state := .disconnected, current_server := none }

/-- `ConnectionManager.reconnect_from_config()`: loads the configuration; if
`not config.core_id or not config.host or not config.port` (Python
truthiness) it returns `False` untouched, otherwise it builds a `ServerInfo`
— `core_name or "Unknown"`, `display_version="Unknown"` — and delegates to
`connect` with the saved token. -/
def reconnect_from_config (m : ManagerState) (creation : Except String Unit) :
    ManagerState × Bool :=
  let config := m.config
  if ¬ (truthyStr config.core_id ∧ truthyStr config.host ∧ truthyInt config.port) then
    (m, false)
  else
    let server : ServerInfo :=
      { core_id := config.core_id.getD ""
        core_name := orElseStr config.core_name "Unknown"
        display_version := "Unknown"
        host := config.host.getD ""
        http_port := config.port.getD 0 }
    connect m server config.token creation

/-- Specification-side view of one receive-loop run: the `ServerInfo` values
the loop would build from each decoded datagram, in arrival order, stopping
at the first event that ends the loop (a receive timeout, a receive error, or
a datagram whose `http_port` string makes `int(...)` raise). -/
def candidateRecords : List RecvEvent → List ServerInfo
  | [] => []
  | .timeout :: _ => []
  | .recvError :: _ => []
  | .datagram host dec :: rest =>
    match dec with
    | .error _ => candidateRecords rest
    | .ok props =>
      match extractHttpPort props.http_port with
      | none => []
      | some port => mkServerInfo host props port :: candidateRecords rest

/-- Specification-side deduplication: keep, in first-seen order, the first
record for each `core_id` not already in `seen`. -/
def dedupFirstBy : List String → List ServerInfo → List ServerInfo
  | _, [] => []
  | seen, r :: rest =>
    if r.core_id ∈ seen then dedupFirstBy seen rest
    else r :: dedupFirstBy (r.core_id :: seen) rest

/-- The receive loop is the first-seen deduplication of the candidate
records, appended to whatever was accumulated so far. -/
theorem recvLoop_eq_dedup (evts : List RecvEvent) :
    ∀ (servers : List ServerInfo) (seen : List String),
      recvLoop evts servers seen = servers ++ dedupFirstBy seen (candidateRecords evts) := by
  induction evts with
  | nil => intro servers seen; simp [recvLoop, candidateRecords, dedupFirstBy]
  | cons e rest ih =>
    intro servers seen
    cases e with
    | timeout => simp [recvLoop, candidateRecords, dedupFirstBy]
    | recvError => simp [recvLoop, candidateRecords, dedupFirstBy]
    | datagram host dec =>
      cases dec with
      | error u => simp [recvLoop, candidateRecords, ih]
      | ok props =>
        cases hport : extractHttpPort props.http_port with
        | none => simp [recvLoop, candidateRecords, hport, dedupFirstBy]
        | some port =>
          by_cases hmem : props.unique_id.getD "" ∈ seen
          · simp [recvLoop, candidateRecords, hport, dedupFirstBy, hmem, ih, mkServerInfo]
          · simp [recvLoop, candidateRecords, hport, dedupFirstBy, hmem, ih, mkServerInfo]

/-- A record surviving `dedupFirstBy` carries an id outside the starting
`seen` set. -/
theorem dedupFirstBy_not_mem_seen (l : List ServerInfo) :
    ∀ (seen : List String) (r : ServerInfo),
      r ∈ dedupFirstBy seen l → r.core_id ∉ seen := by
  induction l with
  | nil => intro seen r hr; simp [dedupFirstBy] at hr
  | cons x rest ih =>
    intro seen r hr
    by_cases hx : x.core_id ∈ seen
    · rw [dedupFirstBy, if_pos hx] at hr
      exact ih seen r hr
    · rw [dedupFirstBy, if_neg hx] at hr
      rcases List.mem_cons.mp hr with h | h
      · subst h; exact hx
      · exact fun hs => ih _ r h (List.mem_cons_of_mem _ hs)

/-- `dedupFirstBy` leaves no two records with the same id. -/
theorem dedupFirstBy_core_ids_nodup (l : List ServerInfo) :
    ∀ seen : List String, ((dedupFirstBy seen l).map ServerInfo.core_id).Nodup := by
  induction l with
  | nil => intro seen; simp [dedupFirstBy]
  | cons x rest ih =>
    intro seen
    by_cases hx : x.core_id ∈ seen
    · rw [dedupFirstBy, if_pos hx]; exact ih seen
    · rw [dedupFirstBy, if_neg hx]
      refine List.nodup_cons.mpr ⟨?_, ih _⟩
      intro hmem
      rcases List.mem_map.mp hmem with ⟨r, hr, hcid⟩
      exact dedupFirstBy_not_mem_seen rest _ r hr (by simp [hcid])

/-- Once an id is in `seen`, no record of `dedupFirstBy` carries it. -/
theorem dedupFirstBy_filter_nil (l : List ServerInfo) (seen : List String)
    (uid : String) (h : uid ∈ seen) :
    (dedupFirstBy seen l).filter (fun r => decide (r.core_id = uid)) = [] := by
  rw [List.filter_eq_nil_iff]
  intro r hr
  simp only [decide_eq_true_eq]
  intro hcid
  exact dedupFirstBy_not_mem_seen l seen r hr (hcid ▸ h)

/-- For any fresh id, first-seen deduplication keeps exactly the first
record of the input carrying that id. -/
theorem dedupFirstBy_filter_eq (l : List ServerInfo) :
    ∀ (seen : List String) (uid : String), uid ∉ seen →
      (dedupFirstBy seen l).filter (fun r => decide (r.core_id = uid)) =
        (l.filter (fun r => decide (r.core_id = uid))).take 1 := by
  induction l with
  | nil => intro seen uid _; simp [dedupFirstBy]
  | cons x rest ih =>
    intro seen uid huid
    by_cases hx : x.core_id ∈ seen
    · have hxu : ¬ x.core_id = uid := fun h => huid (h ▸ hx)
      rw [dedupFirstBy, if_pos hx]
      rw [List.filter_cons_of_neg (by simpa using hxu)]
      exact ih seen uid huid
    · rw [dedupFirstBy, if_neg hx]
      by_cases hxu : x.core_id = uid
      · rw [List.filter_cons_of_pos (by simpa using hxu),
          List.filter_cons_of_pos (by simpa using hxu)]
        rw [dedupFirstBy_filter_nil rest _ uid (by simp [hxu])]
        simp
      · rw [List.filter_cons_of_neg (by simpa using hxu),
          List.filter_cons_of_neg (by simpa using hxu)]
        refine ih _ uid ?_
        simp only [List.mem_cons, not_or]
        exact ⟨fun h => hxu h.symm, huid⟩

/-- Events after a loop-breaking receive outcome (timeout or a non-timeout
receive exception) are never examined. -/
theorem recvLoop_stops_at_break (t : RecvEvent)
    (ht : t = RecvEvent.timeout ∨ t = RecvEvent.recvError) :
    ∀ (pre post : List RecvEvent) (servers : List ServerInfo) (seen : List String),
      recvLoop (pre ++ t :: post) servers seen = recvLoop pre servers seen := by
  intro pre
  induction pre with
  | nil =>
    intro post servers seen
    rcases ht with h | h <;> subst h <;> simp [recvLoop]
  | cons e rest ih =>
    intro post servers seen
    cases e with
    | timeout => simp [recvLoop]
    | recvError => simp [recvLoop]
    | datagram host dec =>
      cases dec with
      | error u => simpa [recvLoop] using ih post servers seen
      | ok props =>
        cases hport : extractHttpPort props.http_port with
        | none => simp [recvLoop, hport]
        | some port =>
          by_cases hmem : props.unique_id.getD "" ∈ seen
          · simpa [recvLoop, hport, hmem] using ih post servers seen
          · simpa [recvLoop, hport, hmem] using
              ih post (servers ++ [mkServerInfo host props port])
                (props.unique_id.getD "" :: seen)

/-- Claim C1: contrary to the claim, a datagram that decodes successfully but
whose property map lacks `unique_id` does contribute a `ServerInfo` to the
result — `properties.get("unique_id", "")` defaults the id to the empty
string — and a second unrelated id-less server is then falsely deduplicated
against it: two id-less responses from different hosts yield one record with
`core_id = ""` built from the first. -/
theorem discover_servers_keeps_record_without_unique_id :
    discover_servers
      ⟨true, true,
        [ .datagram "10.0.0.1" (.ok ⟨none, some "Alpha", some "1.8", none⟩),
          .datagram "10.0.0.2" (.ok ⟨none, some "Beta", some "2.0", none⟩),
          .timeout ]⟩ =
      [⟨"", "Alpha", "1.8", "10.0.0.1", 9100⟩] := by
  decide

/-- Claim C2: contrary to the claim, `_on_state_change` has no idempotency
guard.  After a successful `connect`, two state-change events during which
the session exposes the same valid token produce two `config_manager.update`
persistence calls and two `AuthenticationStatus(is_authenticated=True)`
emissions, not one. -/
theorem on_state_change_repeats_save_and_emit :
    (connect (initManager ⟨none, none, none, none, none⟩)
        ⟨"core-1", "Living Room", "2.0", "192.168.1.10", 9100⟩ none (.ok ())).2 = true ∧
    (runStateChanges
        (connect (initManager ⟨none, none, none, none, none⟩)
          ⟨"core-1", "Living Room", "2.0", "192.168.1.10", 9100⟩ none (.ok ())).1
        [some "tok", some "tok"]).saves.length = 2 ∧
    ((runStateChanges
        (connect (initManager ⟨none, none, none, none, none⟩)
          ⟨"core-1", "Living Room", "2.0", "192.168.1.10", 9100⟩ none (.ok ())).1
        [some "tok", some "tok"]).emitted.filter
          (fun st => st.is_authenticated)).length = 2 := by
  decide

/-- Claim C3: within one `discover_servers` call, responses are deduplicated
by `unique_id` with the first-observed datagram winning: the result is
exactly the first-seen deduplication of the candidate records in arrival
order, its ids are pairwise distinct, and for every id the result keeps
precisely the first candidate record carrying it. -/
theorem discover_servers_dedups_first_seen (env : DiscoveryEnv)
    (hfile : env.soodFileOk = true) (hsock : env.socketOk = true) :
    discover_servers env = dedupFirstBy [] (candidateRecords env.events) ∧
    ((discover_servers env).map ServerInfo.core_id).Nodup ∧
    ∀ uid : String,
      (discover_servers env).filter (fun r => decide (r.core_id = uid)) =
        ((candidateRecords env.events).filter (fun r => decide (r.core_id = uid))).take 1 := by
  have h1 : discover_servers env = dedupFirstBy [] (candidateRecords env.events) := by
    simp [discover_servers, hfile, hsock, recvLoop_eq_dedup]
  refine ⟨h1, ?_, ?_⟩
  · rw [h1]; exact dedupFirstBy_core_ids_nodup _ _
  · intro uid
    rw [h1]
    exact dedupFirstBy_filter_eq _ [] uid (List.not_mem_nil uid)

/-- Witness for claim C3 at a concrete trace in which one server answers
twice (over multicast and broadcast, with different incidental fields) and a
second server answers once. -/
theorem discover_servers_dedups_first_seen_witness :
    discover_servers
        ⟨true, true,
          [ .datagram "10.0.0.7" (.ok ⟨some "core-a", some "Alpha", some "1.8", none⟩),
            .datagram "10.0.0.8" (.ok ⟨some "core-a", some "AlphaAlt", some "1.9", some "9200"⟩),
            .datagram "10.0.0.9" (.ok ⟨some "core-b", some "Beta", some "2.0", none⟩),
            .timeout ]⟩ =
      dedupFirstBy []
        (candidateRecords
          [ .datagram "10.0.0.7" (.ok ⟨some "core-a", some "Alpha", some "1.8", none⟩),
            .datagram "10.0.0.8" (.ok ⟨some "core-a", some "AlphaAlt", some "1.9", some "9200"⟩),
            .datagram "10.0.0.9" (.ok ⟨some "core-b", some "Beta", some "2.0", none⟩),
            .timeout ]) ∧
    ((discover_servers
        ⟨true, true,
          [ .datagram "10.0.0.7" (.ok ⟨some "core-a", some "Alpha", some "1.8", none⟩),
            .datagram "10.0.0.8" (.ok ⟨some "core-a", some "AlphaAlt", some "1.9", some "9200"⟩),
            .datagram "10.0.0.9" (.ok ⟨some "core-b", some "Beta", some "2.0", none⟩),
            .timeout ]⟩).map ServerInfo.core_id).Nodup ∧
    ∀ uid : String,
      (discover_servers
          ⟨true, true,
            [ .datagram "10.0.0.7" (.ok ⟨some "core-a", some "Alpha", some "1.8", none⟩),
              .datagram "10.0.0.8" (.ok ⟨some "core-a", some "AlphaAlt", some "1.9", some "9200"⟩),
              .datagram "10.0.0.9" (.ok ⟨some "core-b", some "Beta", some "2.0", none⟩),
              .timeout ]⟩).filter (fun r => decide (r.core_id = uid)) =
        ((candidateRecords
            [ .datagram "10.0.0.7" (.ok ⟨some "core-a", some "Alpha", some "1.8", none⟩),
              .datagram "10.0.0.8" (.ok ⟨some "core-a", some "AlphaAlt", some "1.9", some "9200"⟩),
              .datagram "10.0.0.9" (.ok ⟨some "core-b", some "Beta", some "2.0", none⟩),
              .timeout ]).filter (fun r => decide (r.core_id = uid))).take 1 :=
  discover_servers_dedups_first_seen
    ⟨true, true,
      [ .datagram "10.0.0.7" (.ok ⟨some "core-a", some "Alpha", some "1.8", none⟩),
        .datagram "10.0.0.8" (.ok ⟨some "core-a", some "AlphaAlt", some "1.9", some "9200"⟩),
        .datagram "10.0.0.9" (.ok ⟨some "core-b", some "Beta", some "2.0", none⟩),
        .timeout ]⟩ rfl rfl

/-- Claim C4: contrary to the claim, a decoded datagram carrying a
non-numeric `http_port` is not given the default port 9100: the `ValueError`
raised by `int(...)` escapes the inner `except FormatException` handler, is
caught by the loop's `except Exception`, and terminates the whole receive
loop — here a later well-formed response is consequently never processed and
the call returns the empty list. -/
theorem discover_servers_aborts_on_non_numeric_port :
    discover_servers
      ⟨true, true,
        [ .datagram "10.0.0.1" (.ok ⟨some "core-a", some "Alpha", some "1.8", some "abc"⟩),
          .datagram "10.0.0.2" (.ok ⟨some "core-b", some "Beta", some "2.0", none⟩),
          .timeout ]⟩ = [] := by
  decide

/-- Claim C5, counterexample: the code calls `sock.settimeout(timeout)`, a
per-`recvfrom` timeout, not an overall wall-clock deadline.  With
`timeout = 3` and three datagrams arriving 2 seconds apart, every gap is
within the per-receive timeout, so all three datagrams are received — the
third at wall-clock time 6, already past the claimed overall deadline of 3 —
and the call lasts 9 seconds, more than double the requested 3. -/
theorem discover_timeout_restarts_per_datagram :
    receivedCount 3 [2, 2, 2] = 3 ∧
    elapsedSeconds 3 [2, 2, 2] = 9 ∧
    ¬ (elapsedSeconds 3 [2, 2, 2] ≤ 3 + 3) ∧
    3 < 2 + 2 + 2 := by
  decide

/-- Claim C5, amended: the receive loop is bounded per packet, not by an
overall deadline: it receives exactly the longest prefix of datagrams whose
inter-arrival gaps each fit within `timeout`, and the call returns `timeout`
seconds after the last received datagram (in particular after exactly
`timeout` seconds when no datagram arrives), so the total duration grows
with the sum of the received gaps rather than staying within a fixed margin
of `timeout`. -/
theorem elapsedSeconds_per_packet (timeout : Nat) (gaps : List Nat) :
    elapsedSeconds timeout gaps =
      (gaps.takeWhile (fun g => decide (g ≤ timeout))).sum + timeout ∧
    receivedCount timeout gaps =
      (gaps.takeWhile (fun g => decide (g ≤ timeout))).length := by
  induction gaps with
  | nil => simp [elapsedSeconds, receivedCount]
  | cons g rest ih =>
    by_cases h : g ≤ timeout
    · simp [elapsedSeconds, receivedCount, List.takeWhile_cons, h, ih.1, ih.2]
      omega
    · simp [elapsedSeconds, receivedCount, List.takeWhile_cons, h]

/-- Claim C6: `discover_servers` never propagates an exception: a missing
probe payload or a failed socket setup yields the empty list, and a
non-timeout receive error ends the loop with exactly the records accumulated
from the events before it (an empty result is an ordinary return value —
the embedding is a total function into `List ServerInfo`). -/
theorem discover_servers_degrades_without_raising (env : DiscoveryEnv) :
    (env.soodFileOk = false → discover_servers env = []) ∧
    (env.socketOk = false → discover_servers env = []) ∧
    (∀ pre post : List RecvEvent, env.events = pre ++ .recvError :: post →
      discover_servers env = discover_servers ⟨env.soodFileOk, env.socketOk, pre⟩) := by
  refine ⟨fun h => by simp [discover_servers, h], fun h => by simp [discover_servers, h], ?_⟩
  intro pre post hev
  by_cases h : env.soodFileOk = true ∧ env.socketOk = true
  · simp [discover_servers, h.1, h.2, hev,
      recvLoop_stops_at_break RecvEvent.recvError (Or.inr rfl)]
  · rcases not_and_or.mp h with h1 | h1 <;>
      simp [discover_servers, eq_false_of_ne_true h1]

/-- Witness for claim C6: a receive error after one good response yields just
that response, and a missing probe payload yields the empty list. -/
theorem discover_servers_degrades_without_raising_witness :
    discover_servers
        ⟨true, true,
          [ .datagram "10.0.0.1" (.ok ⟨some "core-a", some "Alpha", some "1.8", none⟩),
            .recvError,
            .datagram "10.0.0.2" (.ok ⟨some "core-b", some "Beta", some "2.0", none⟩) ]⟩ =
      discover_servers
        ⟨true, true,
          [ .datagram "10.0.0.1" (.ok ⟨some "core-a", some "Alpha", some "1.8", none⟩) ]⟩ ∧
    discover_servers ⟨false, true, [.timeout]⟩ = [] :=
  ⟨(discover_servers_degrades_without_raising
      ⟨true, true,
        [ .datagram "10.0.0.1" (.ok ⟨some "core-a", some "Alpha", some "1.8", none⟩),
          .recvError,
          .datagram "10.0.0.2" (.ok ⟨some "core-b", some "Beta", some "2.0", none⟩) ]⟩).2.2
      [.datagram "10.0.0.1" (.ok ⟨some "core-a", some "Alpha", some "1.8", none⟩)]
      [.datagram "10.0.0.2" (.ok ⟨some "core-b", some "Beta", some "2.0", none⟩)] rfl,
   (discover_servers_degrades_without_raising ⟨false, true, [.timeout]⟩).1 rfl⟩

/-- Claim C7: from any prior manager state, `disconnect` leaves the machine
`DISCONNECTED` with the session handle and targeted server cleared, whether
or not the underlying session's `stop()` raises (the exception is only
logged), and it touches nothing else (configuration, saves, emissions). -/
theorem disconnect_always_clears (m : ManagerState) (stopRaises : Bool) :
    (disconnect m stopRaises).state = ConnectionState.disconnected ∧
    (disconnect m stopRaises).api = none ∧
    (disconnect m stopRaises).current_server = none ∧
    (disconnect m stopRaises).config = m.config ∧
    (disconnect m stopRaises).saves = m.saves ∧
    (disconnect m stopRaises).emitted = m.emitted := by
  cases hapi : m.api <;> simp [disconnect, hapi]

/-- Claim C8: `reconnect_from_config` with a saved record missing core id,
host, or port (Python-falsy) returns `False` and leaves every manager field
untouched; with all three present it builds a `ServerInfo` from the saved
fields (`display_version` filled as `"Unknown"`, `core_name` defaulted when
falsy) and delegates to `connect` with the saved token. -/
theorem reconnect_from_config_guarded (m : ManagerState) (creation : Except String Unit) :
    (¬ (truthyStr m.config.core_id = true ∧ truthyStr m.config.host = true ∧
          truthyInt m.config.port = true) →
        reconnect_from_config m creation = (m, false)) ∧
    ((truthyStr m.config.core_id = true ∧ truthyStr m.config.host = true ∧
          truthyInt m.config.port = true) →
        reconnect_from_config m creation =
          connect m
            ⟨m.config.core_id.getD "", orElseStr m.config.core_name "Unknown", "Unknown",
              m.config.host.getD "", m.config.port.getD 0⟩
            m.config.token creation) := by
  constructor <;> intro h <;> simp [reconnect_from_config, h]

/-- Witness for claim C8: a record with no saved host is rejected without
side effects, while a complete record leads to a `connect` call on the
reconstructed server. -/
theorem reconnect_from_config_guarded_witness :
    reconnect_from_config
        (initManager ⟨some "core-1", some "Living Room", some "tok", none, some 9100⟩)
        (.ok ()) =
      (initManager ⟨some "core-1", some "Living Room", some "tok", none, some 9100⟩, false) ∧
    reconnect_from_config
        (initManager ⟨some "core-1", some "Living Room", some "tok",
          some "192.168.1.10", some 9100⟩) (.ok ()) =
      connect
        (initManager ⟨some "core-1", some "Living Room", some "tok",
          some "192.168.1.10", some 9100⟩)
        ⟨"core-1", "Living Room", "Unknown", "192.168.1.10", 9100⟩
        (some "tok") (.ok ()) :=
  ⟨(reconnect_from_config_guarded
      (initManager ⟨some "core-1", some "Living Room", some "tok", none, some 9100⟩)
      (.ok ())).1 (by decide),
   (reconnect_from_config_guarded
      (initManager ⟨some "core-1", some "Living Room", some "tok",
        some "192.168.1.10", some 9100⟩)
      (.ok ())).2 (by decide)⟩

/-- Claim C9: a decoded datagram that carries `unique_id` but lacks the
optional fields yields a `ServerInfo` with `core_name = "Unknown"`,
`display_version = "Unknown"`, and `http_port = 9100`: such a datagram at the
head of the trace produces exactly that record at the head of the result. -/
theorem discover_servers_fills_defaults (env : DiscoveryEnv)
    (host uid : String) (rest : List RecvEvent)
    (hfile : env.soodFileOk = true) (hsock : env.socketOk = true)
    (hev : env.events = .datagram host (.ok ⟨some uid, none, none, none⟩) :: rest) :
    (discover_servers env).head? = some ⟨uid, "Unknown", "Unknown", host, 9100⟩ := by
  simp [discover_servers, hfile, hsock, hev, recvLoop_eq_dedup, candidateRecords,
    extractHttpPort, dedupFirstBy, mkServerInfo]

/-- Witness for claim C9: a single response containing only `unique_id`
produces the fully defaulted record. -/
theorem discover_servers_fills_defaults_witness :
    (discover_servers
        ⟨true, true,
          [.datagram "192.168.1.50" (.ok ⟨some "core-x", none, none, none⟩), .timeout]⟩).head? =
      some ⟨"core-x", "Unknown", "Unknown", "192.168.1.50", 9100⟩ :=
  discover_servers_fills_defaults
    ⟨true, true,
      [.datagram "192.168.1.50" (.ok ⟨some "core-x", none, none, none⟩), .timeout]⟩
    "192.168.1.50" "core-x" [.timeout] rfl rfl rfl

/-- Claim C10: `connect` records the new target before attempting session
creation, so a synchronous creation failure returns `False`, emits exactly
one failure `AuthenticationStatus`, and leaves the machine in `ERROR` with
`current_server` still the server whose connection failed — not rolled back
or cleared — while `self._api` keeps whatever it held before (the failed
constructor never assigned it). -/
theorem connect_failure_keeps_new_target (m : ManagerState) (server : ServerInfo)
    (token : Option String) (msg : String) :
    (connect m server token (.error msg)).2 = false ∧
    (connect m server token (.error msg)).1.state = ConnectionState.error ∧
    (connect m server token (.error msg)).1.current_server = some server ∧
    (connect m server token (.error msg)).1.api = m.api ∧
    (connect m server token (.error msg)).1.emitted =
      m.emitted ++ [⟨false, none, some msg⟩] ∧
    (connect m server token (.error msg)).1.config = m.config ∧
    (connect m server token (.error msg)).1.saves = m.saves := by
  simp [connect]

end RoonPytui
